import Mathlib

set_option maxHeartbeats 1000000

/-! Shallow embedding of the udev display backend of the pinnacle compositor
(src/backend/udev.rs): the per-output render-scheduling state machine
(`schedule_render`, `render_surface`, `on_vblank`, `set_output_powered`),
the screencopy synchronizer (`handle_pending_screencopy`) and the device
registry (`device_added`).  The model projects the backend onto one output
on one device; the calloop event loop is modelled as the list of
registered idle-callback tokens, and fallible renderer / hardware
operations are environment parameters.  Panics (`panic!`, `unwrap`,
`assert_matches!`) are modelled by `Option` results, `none` meaning the
process aborts. -/

namespace Pinnacle

/-- A damage rectangle, coordinates in output-physical pixels
(smithay `Rectangle<i32, Physical>`). -/
structure Rect where
  x : Int
  y : Int
  w : Int
  h : Int
deriving DecidableEq

/-- Per-plane commit counters used by damage-only screencopy
(`struct ScreencopyCommitState` in udev.rs; smithay `CommitCounter`
modelled as `Nat`). -/
structure ScreencopyCommitState where
  primary_plane_swapchain : Nat
  primary_plane_element : Nat
  cursor : Nat
deriving DecidableEq

/-- The state of a `RenderSurface` (`enum RenderState` in udev.rs).
The calloop `Idle` token carried by `Scheduled` is modelled as a `Nat`
identifying the registered idle callback. -/
inductive RenderState where
  | Idle : RenderState
  | Scheduled (token : Nat) : RenderState
  | WaitingForVblank (dirty : Bool) : RenderState
deriving DecidableEq

/-- `Default for RenderState` is `Idle`; used by the `std::mem::take` calls
in `on_vblank` and `set_output_powered`. -/
instance : Inhabited RenderState := ⟨RenderState.Idle⟩

/-- The buffer supplied with a screencopy request, as classified by
`handle_pending_screencopy`: a dmabuf (fourcc format code, width, height),
an shm buffer (wl_shm format code, stride, height, pool length), or
anything else (which hits the `not a shm buffer` error path). -/
inductive ScreencopyBuffer where
  | dmabuf (format : Nat) (width : Int) (height : Int) : ScreencopyBuffer
  | shm (format : Nat) (stride : Int) (height : Int) (len : Int) : ScreencopyBuffer
  | other : ScreencopyBuffer
deriving DecidableEq

/-- A pending screencopy (capture) request attached to an output
(`Screencopy` in pinnacle; the fields `handle_pending_screencopy` reads). -/
structure ScreencopyRequest where
  with_damage : Bool
  overlay_cursor : Bool
  buffer : ScreencopyBuffer
  physical_region : Rect
deriving DecidableEq

/-- The DRM fourcc code for Argb8888, the value of
`shm_format_to_fourcc(wl_shm::Format::Argb8888)` used by the dmabuf
validation in `handle_pending_screencopy`. -/
def argb8888Fourcc : Nat := 0x34325241

/-- The wl_shm format code for Argb8888 used by the shm validation in
`handle_pending_screencopy`. -/
def wlShmArgb8888 : Nat := 0

/-- A `RenderSurface` (struct of the same name in udev.rs), projected onto
the fields the render scheduler and screencopy synchronizer touch. -/
structure RenderSurface where
  render_state : RenderState
  screencopy_commit_state : ScreencopyCommitState
deriving DecidableEq

/-- The backend state reachable from one output of one device: `Udev`,
the `Pinnacle` bookkeeping for that output, and the event loop.

* `deviceRegistered` — `self.backends.contains_key(&device_id)`;
* `surface` — `self.backends[&device_id].surfaces.get(&crtc)`;
* `outputMapped` — `pinnacle.outputs.contains_key(output)`;
* `powered` — `output.with_state(|s| s.powered)`;
* `screencopy` — `output.with_state(|s| s.screencopy)`;
* `crtcActive` — the DRM crtc ACTIVE property (`set_crtc_active`);
* `compositorResets` — number of `compositor.reset_state()` calls;
* `pendingCallbacks` — tokens of idle callbacks registered and not yet
  cancelled (`loop_handle.insert_idle` / `Idle::cancel`);
* `nextToken` — fresh-token supply for `insert_idle`;
* `queuedFrames` — number of successful `compositor.queue_frame` calls;
* `frameCallbacksSent` — times `on_vblank` ran its `send_frame` loop;
* `cursorTimers` — animated-cursor timers inserted by `on_vblank`. -/
structure Backend where
  deviceRegistered : Bool
  surface : Option RenderSurface
  outputMapped : Bool
  powered : Bool
  screencopy : Option ScreencopyRequest
  crtcActive : Bool
  compositorResets : Nat
  pendingCallbacks : List Nat
  nextToken : Nat
  queuedFrames : Nat
  frameCallbacksSent : Nat
  cursorTimers : Nat
deriving DecidableEq

/-- `fn render_surface_for_output`: look the `RenderSurface` up through
the device registry (`backends.get_mut(device_id)` then
`surfaces.get_mut(crtc)`). -/
def render_surface_for_output (b : Backend) : Option RenderSurface :=
  if b.deviceRegistered then b.surface else none

/-- `Udev::schedule_render`: `Idle → Scheduled` registering an idle
callback in the event loop; `Scheduled → Scheduled` without touching
anything; `WaitingForVblank → WaitingForVblank { dirty: true }`.  When the
output has no render surface the call logs and returns. -/
def schedule_render (b : Backend) : Backend :=
  match render_surface_for_output b with
  | none => b
  | some s =>
    match s.render_state with
    | RenderState.Idle =>
        { b with
          surface := some { s with render_state := RenderState.Scheduled b.nextToken }
          pendingCallbacks := b.pendingCallbacks ++ [b.nextToken]
          nextToken := b.nextToken + 1 }
    | RenderState.Scheduled _ => b
    | RenderState.WaitingForVblank _ =>
        { b with surface := some { s with render_state := RenderState.WaitingForVblank true } }

/-- `Udev::set_output_powered`.  Power-on only sets the output's powered
flag.  Power-off deactivates the crtc, clears the flag, resets the
compositor state (`surfaces.get_mut(crtc).unwrap()` — `none` models that
unwrap panicking), then `std::mem::take`s the render state (forcing
`Idle`) and cancels the idle token if one was scheduled.  A device id
missing from the registry returns early. -/
def set_output_powered (b : Backend) (powered : Bool) : Option Backend :=
  if ¬ b.deviceRegistered then some b
  else if powered then
    some { b with powered := true }
  else
    match b.surface with
    | none => none
    | some s =>
      let b1 : Backend :=
        { b with
          crtcActive := false
          powered := false
          compositorResets := b.compositorResets + 1 }
      match s.render_state with
      | RenderState.Scheduled tok =>
          some { b1 with
            surface := some { s with render_state := RenderState.Idle }
            pendingCallbacks := b1.pendingCallbacks.filter (fun t => t ≠ tok) }
      | _ =>
          some { b1 with surface := some { s with render_state := RenderState.Idle } }

/-- A cursor-plane render element as `handle_pending_screencopy` uses it:
`damage_since` maps a stored commit counter to the damage accumulated
since it, `current_commit` is the element's current commit counter, and
`geometry` its rectangle (used when only the cursor moved). -/
structure CursorElement where
  damage_since : Nat → List Rect
  current_commit : Nat
  geometry : Rect

/-- The primary plane of a `RenderFrameResult`
(`PrimaryPlaneElement::Swapchain` or `::Element`).  For the swapchain
variant `damage_since` returns `none` when the stored counter is too old
or damage was reset, which the code expands to full-output damage. -/
inductive PrimaryPlane where
  | swapchain (damage_since : Nat → Option (List Rect)) (current_commit : Nat) : PrimaryPlane
  | element (damage_since : Nat → List Rect) (current_commit : Nat) : PrimaryPlane

/-- The parts of smithay's `RenderFrameResult` that
`Udev::render_surface` and `handle_pending_screencopy` read. -/
structure RenderFrameResult where
  is_empty : Bool
  primary_element : PrimaryPlane
  cursor_element : Option CursorElement

/-- Outcomes of the fallible renderer / event-loop operations inside the
copy phase of `handle_pending_screencopy`: `copy_ok` collapses the
bind/blit/copy_framebuffer/map/length-check results of the chosen copy
path, `sync_reached` is `sync_point.is_reached()`, `export_ok` whether
`sync_point.export()` yields a pollable fd, and `insert_ok` whether the
one-shot source registration in the event loop succeeds. -/
structure ScreencopyEnv where
  copy_ok : Bool
  sync_reached : Bool
  export_ok : Bool
  insert_ok : Bool
deriving DecidableEq

/-- How one `handle_pending_screencopy` invocation disposed of the
(possible) pending request. -/
inductive ScreencopyOutcome where
  | noRequest : ScreencopyOutcome
  | reattachedEmptyRender : ScreencopyOutcome
  | reattachedEmptyDamage : ScreencopyOutcome
  | droppedInvalid : ScreencopyOutcome
  | droppedCopyError : ScreencopyOutcome
  | droppedLoopError : ScreencopyOutcome
  | submitted : ScreencopyOutcome
  | deferredSubmit : ScreencopyOutcome
deriving DecidableEq

/-- Result of `handle_pending_screencopy`: the screencopy slot of the
output afterwards, the surface's commit counters afterwards, the damage
rects sent with `screencopy.damage(..)` (if any), and the disposition. -/
structure ScreencopyResult where
  slot : Option ScreencopyRequest
  ccs : ScreencopyCommitState
  damage_sent : Option (List Rect)
  outcome : ScreencopyOutcome

/-- Damage computation of the `with_damage` branch of
`handle_pending_screencopy` (udev.rs lines 1535-1593): per-plane damage
since the stored commit counters, advancing each counter to the plane's
current commit as it is read; a `none` swapchain answer becomes
full-output damage; cursor damage is chained on; and if everything is
empty while the frame was not, the cursor geometry is used.  The
`to_logical/to_physical` round-trip on swapchain rects is the identity at
scale 1 / `Transform::Normal` and is not modelled. -/
def computeDamage (rfr : RenderFrameResult) (ccs : ScreencopyCommitState)
    (outputSize : Int × Int) : List Rect × ScreencopyCommitState :=
  let primary :=
    match rfr.primary_element with
    | PrimaryPlane.swapchain ds cur =>
        ((ds ccs.primary_plane_swapchain).getD
          [⟨0, 0, outputSize.1, outputSize.2⟩],
         { ccs with primary_plane_swapchain := cur })
    | PrimaryPlane.element ds cur =>
        (ds ccs.primary_plane_element,
         { ccs with primary_plane_element := cur })
  let cursor :=
    match rfr.cursor_element with
    | some c => (c.damage_since primary.2.cursor,
                 { primary.2 with cursor := c.current_commit })
    | none => ([], primary.2)
  let damage := primary.1 ++ cursor.1
  let damage :=
    if damage.isEmpty ∧ rfr.is_empty = false then
      match rfr.cursor_element with
      | some c => damage ++ [c.geometry]
      | none => damage
    else damage
  (damage, cursor.2)

/-- The tail of `handle_pending_screencopy` (udev.rs lines 1611-1807):
validate the client buffer against the requested physical region, run the
chosen copy path, and submit now, submit on sync-point signal, or drop.
Geometry/format mismatches on the dmabuf path `return` silently; the shm
`ensure!` mismatch and the not-shm case produce an `Err` that is only
logged (`Failed to submit screencopy`).  In every one of these paths the
request was already taken from the output and is not re-attached. -/
def finishCopy (env : ScreencopyEnv) (screencopy : ScreencopyRequest)
    (ccs : ScreencopyCommitState) (damage_sent : Option (List Rect)) :
    ScreencopyResult :=
  let afterCopy : ScreencopyOutcome :=
    if env.copy_ok then
      if ¬ env.sync_reached then
        if env.export_ok then
          if env.insert_ok then ScreencopyOutcome.deferredSubmit
          else ScreencopyOutcome.droppedLoopError
        else ScreencopyOutcome.submitted
      else ScreencopyOutcome.submitted
    else ScreencopyOutcome.droppedCopyError
  match screencopy.buffer with
  | ScreencopyBuffer.dmabuf format width height =>
      if format = argb8888Fourcc ∧ width = screencopy.physical_region.w
          ∧ height = screencopy.physical_region.h then
        ⟨none, ccs, damage_sent, afterCopy⟩
      else
        ⟨none, ccs, damage_sent, ScreencopyOutcome.droppedInvalid⟩
  | ScreencopyBuffer.shm format stride height len =>
      if format = wlShmArgb8888 ∧ stride = screencopy.physical_region.w * 4
          ∧ height = screencopy.physical_region.h ∧ len = stride * height then
        ⟨none, ccs, damage_sent, afterCopy⟩
      else
        ⟨none, ccs, damage_sent, ScreencopyOutcome.droppedCopyError⟩
  | ScreencopyBuffer.other =>
      ⟨none, ccs, damage_sent, ScreencopyOutcome.droppedCopyError⟩

/-- `fn handle_pending_screencopy`: take the pending request off the
output (return if there is none); for a `with_damage` request re-attach
it when the render result is empty, otherwise compute per-plane damage
(advancing the commit counters), re-attach when the damage is empty, and
send the damage; finally validate and run the copy. -/
def handle_pending_screencopy (env : ScreencopyEnv)
    (slot : Option ScreencopyRequest) (ccs : ScreencopyCommitState)
    (rfr : RenderFrameResult) (outputSize : Int × Int) : ScreencopyResult :=
  match slot with
  | none => ⟨none, ccs, none, ScreencopyOutcome.noRequest⟩
  | some screencopy =>
    if screencopy.with_damage then
      if rfr.is_empty then
        ⟨some screencopy, ccs, none, ScreencopyOutcome.reattachedEmptyRender⟩
      else
        let dc := computeDamage rfr ccs outputSize
        if dc.1.isEmpty then
          ⟨some screencopy, dc.2, none, ScreencopyOutcome.reattachedEmptyDamage⟩
        else
          finishCopy env screencopy dc.2 (some dc.1)
    else
      finishCopy env screencopy ccs none

/-- Outcome of the fallible render-and-queue body of
`Udev::render_surface`: `renderError` when `render_frame` (or the sync
wait path feeding it) returns `Err`; otherwise the `RenderFrameResult`
together with whether the later `compositor.queue_frame` call succeeds. -/
inductive RenderOutcome where
  | renderError : RenderOutcome
  | frame (result : RenderFrameResult) (queue_ok : Bool) : RenderOutcome

/-- `Udev::render_surface`, the deferred render callback.  In source
order: look up the surface (return if none); if the output is unmapped
(`!pinnacle.outputs.contains_key`) or powered off, force `Idle` and
return; `assert_matches!(render_state, Scheduled(_))` (`none` models the
panic); render (`locked` is `!pinnacle.lock_state.is_unlocked()`, gating
the screencopy; `transactionReady` is the `render_after_transaction_finish`
flag taken from a completed layout transaction); on a non-empty frame,
`queue_frame` — success goes to `WaitingForVblank { dirty: false }`, an
empty frame or any error to `Idle`; finally, if a layout transaction
completed, `schedule_render` is invoked once more. -/
def render_surface (locked : Bool) (transactionReady : Bool)
    (outcome : RenderOutcome) (outputSize : Int × Int) (env : ScreencopyEnv)
    (b : Backend) : Option Backend :=
  match render_surface_for_output b with
  | none => some b
  | some s =>
    if ¬ b.outputMapped then
      some { b with surface := some { s with render_state := RenderState.Idle } }
    else if ¬ b.powered then
      some { b with surface := some { s with render_state := RenderState.Idle } }
    else
      match s.render_state with
      | RenderState.Scheduled _ =>
        match outcome with
        | RenderOutcome.renderError =>
          let b1 : Backend :=
            { b with surface := some { s with render_state := RenderState.Idle } }
          some (if transactionReady then schedule_render b1 else b1)
        | RenderOutcome.frame rfr queue_ok =>
          let sc :=
            if ¬ locked then
              let r := handle_pending_screencopy env b.screencopy
                s.screencopy_commit_state rfr outputSize
              (r.slot, r.ccs)
            else (b.screencopy, s.screencopy_commit_state)
          let s1 : RenderSurface := { s with screencopy_commit_state := sc.2 }
          let rendered := rfr.is_empty = false
          let b1 : Backend :=
            if rendered then
              if queue_ok then
                { b with
                  screencopy := sc.1
                  surface := some
                    { s1 with render_state := RenderState.WaitingForVblank false }
                  queuedFrames := b.queuedFrames + 1 }
              else
                { b with
                  screencopy := sc.1
                  surface := some { s1 with render_state := RenderState.Idle } }
            else
              { b with
                screencopy := sc.1
                surface := some { s1 with render_state := RenderState.Idle } }
          some (if transactionReady then schedule_render b1 else b1)
      | _ => none

/-- Result of `compositor.frame_submitted()` at the top of
`Udev::on_vblank`: success (presentation feedback relayed), an ordinary
error (logged, processing continues), or `SwapBuffersError::ContextLost`
(the process panics: `Rendering loop lost`). -/
inductive FrameSubmittedResult where
  | ok : FrameSubmittedResult
  | ordinaryError : FrameSubmittedResult
  | contextLost : FrameSubmittedResult
deriving DecidableEq

/-- `Udev::on_vblank`.  In source order: look the surface up through the
registry (return if absent); find the mapped output (return if absent);
handle `frame_submitted` — `ContextLost` panics (`none`), other errors
are only logged; `std::mem::take` the render state: `WaitingForVblank`
extracts `dirty` — `true` immediately reschedules, `false` sends frame
callbacks to every window; any other state is logged and defensively
rescheduled, returning early.  Afterwards, when an animated cursor frame
is due (`animatedCursor`), a timer that will reschedule is inserted. -/
def on_vblank (fs : FrameSubmittedResult) (animatedCursor : Bool)
    (b : Backend) : Option Backend :=
  if ¬ b.deviceRegistered then some b
  else
    match b.surface with
    | none => some b
    | some s =>
      if ¬ b.outputMapped then some b
      else if fs = FrameSubmittedResult.contextLost then none
      else
        match s.render_state with
        | RenderState.WaitingForVblank dirty =>
          let b1 : Backend :=
            { b with surface := some { s with render_state := RenderState.Idle } }
          let b2 :=
            if dirty then schedule_render b1
            else { b1 with frameCallbacksSent := b1.frameCallbacksSent + 1 }
          some (if animatedCursor then { b2 with cursorTimers := b2.cursorTimers + 1 } else b2)
        | _ =>
          let b1 : Backend :=
            { b with surface := some { s with render_state := RenderState.Idle } }
          some (schedule_render b1)

/-- Per-device data held by the registry (`struct UdevBackendData`),
projected onto the fields the hotplug claims observe. -/
structure UdevBackendData where
  registration_token : Nat
  render_node : Nat
  surfaces : List (Nat × RenderSurface)
deriving DecidableEq

/-- `HashMap::insert` on an association list keyed by device node: the
first binding of the key is replaced, otherwise the binding is appended. -/
def insertBackend (m : List (Nat × UdevBackendData)) (k : Nat)
    (v : UdevBackendData) : List (Nat × UdevBackendData) :=
  match m with
  | [] => [(k, v)]
  | (k', v') :: rest =>
      if k' = k then (k, v) :: rest else (k', v') :: insertBackend rest k v

/-- `HashMap::get_mut(k)` followed by mutation: apply `f` to the binding
of `k`, leaving every other binding untouched (the shape of
`device_changed` / `connector_connected`, which only mutate the
`surfaces` of the node they were called on). -/
def updateBackend (m : List (Nat × UdevBackendData)) (k : Nat)
    (f : UdevBackendData → UdevBackendData) : List (Nat × UdevBackendData) :=
  m.map (fun p => if p.1 = k then (p.1, f p.2) else p)

/-- Environment of one `Udev::device_added` call: whether the session
open, `DrmDevice::new`, `GbmDevice::new` and `gpu_manager.add_node` steps
succeed, the drm-notifier registration token, the render node chosen for
the device, and the connector-scan effect of the trailing
`device_changed` call on this node's data. -/
structure DeviceAddEnv where
  open_ok : Bool
  drm_ok : Bool
  gbm_ok : Bool
  add_node_ok : Bool
  token : Nat
  render_node : Nat
  scan : UdevBackendData → UdevBackendData

/-- `Udev::device_added`: open the device, set up drm/gbm, register the
vblank notifier, add the render node, `self.backends.insert(node, ..)`
with a fresh `UdevBackendData`, then `device_changed(node)` rescans
connectors (mutating only that node's entry).  Any setup failure is
returned as a `DeviceAddError` and the registry is untouched. -/
def device_added (env : DeviceAddEnv) (backends : List (Nat × UdevBackendData))
    (node : Nat) : Except Unit (List (Nat × UdevBackendData)) :=
  if ¬ env.open_ok then Except.error ()
  else if ¬ env.drm_ok then Except.error ()
  else if ¬ env.gbm_ok then Except.error ()
  else if ¬ env.add_node_ok then Except.error ()
  else
    let backends := insertBackend backends node
      { registration_token := env.token
        render_node := env.render_node
        surfaces := [] }
    Except.ok (updateBackend backends node env.scan)

/-- Number of bindings of a key in the registry. -/
def countKey (m : List (Nat × UdevBackendData)) (k : Nat) : Nat :=
  (m.filter (fun p => p.1 = k)).length

/-- The render state of the modelled surface, if the surface exists. -/
def surfaceRenderState (b : Backend) : Option RenderState :=
  b.surface.map (fun s => s.render_state)

/-- A successful `render_surface_for_output` lookup means the device is
registered and the surface stored. -/
theorem registered_of_rsfo {b : Backend} {s : RenderSurface}
    (h : render_surface_for_output b = some s) :
    b.deviceRegistered = true ∧ b.surface = some s := by
  unfold render_surface_for_output at h
  by_cases hd : b.deviceRegistered = true
  · exact ⟨hd, by simpa [hd] using h⟩
  · simp [Bool.not_eq_true] at hd
    simp [hd] at h

/-- On a surface already in `Scheduled`, `schedule_render` is the
identity. -/
theorem schedule_render_of_scheduled {b : Backend} {s : RenderSurface} {t : Nat}
    (hs : render_surface_for_output b = some s)
    (hst : s.render_state = RenderState.Scheduled t) :
    schedule_render b = b := by
  simp only [schedule_render, hs, hst]

/-- Baseline concrete backend: one registered device, mapped and powered
output, surface idle, no pending screencopy, empty event loop. -/
def B0 : Backend :=
  { deviceRegistered := true
    surface := some { render_state := RenderState.Idle
                      screencopy_commit_state := ⟨0, 0, 0⟩ }
    outputMapped := true
    powered := true
    screencopy := none
    crtcActive := true
    compositorResets := 0
    pendingCallbacks := []
    nextToken := 0
    queuedFrames := 0
    frameCallbacksSent := 0
    cursorTimers := 0 }

/-- C1: for every surface, `schedule_render` performs exactly these
transitions: `Idle → Scheduled`, registering exactly one cancelable idle
callback (the token is appended to the loop and stored in the state);
`Scheduled → Scheduled` is a strict no-op, so any number n ≥ 1 of
`schedule_render` calls before the callback fires equals a single call
and leaves exactly the one registered callback; and
`WaitingForVblank { dirty := false } → WaitingForVblank { dirty := true }`
without touching the event loop. -/
theorem schedule_render_transitions (b : Backend) (s : RenderSurface)
    (hs : render_surface_for_output b = some s) :
    (s.render_state = RenderState.Idle →
      schedule_render b =
        { b with
          surface := some { s with render_state := RenderState.Scheduled b.nextToken }
          pendingCallbacks := b.pendingCallbacks ++ [b.nextToken]
          nextToken := b.nextToken + 1 } ∧
      ∀ n, 1 ≤ n → schedule_render^[n] b = schedule_render b)
    ∧ (∀ t, s.render_state = RenderState.Scheduled t → schedule_render b = b)
    ∧ (s.render_state = RenderState.WaitingForVblank false →
      schedule_render b =
        { b with
          surface := some { s with render_state := RenderState.WaitingForVblank true } }) := by
  obtain ⟨hreg, _hsurf⟩ := registered_of_rsfo hs
  have h1 : ∀ hidle : s.render_state = RenderState.Idle,
      schedule_render b =
        { b with
          surface := some { s with render_state := RenderState.Scheduled b.nextToken }
          pendingCallbacks := b.pendingCallbacks ++ [b.nextToken]
          nextToken := b.nextToken + 1 } := by
    intro hidle
    simp only [schedule_render, hs, hidle]
  refine ⟨fun hidle => ⟨h1 hidle, ?_⟩, fun t hsch => schedule_render_of_scheduled hs hsch,
    fun hw => ?_⟩
  · intro n hn
    obtain ⟨k, rfl⟩ : ∃ k, n = k + 1 := ⟨n - 1, (Nat.succ_pred_eq_of_pos hn).symm⟩
    rw [Function.iterate_succ_apply]
    apply Function.iterate_fixed
    apply schedule_render_of_scheduled
      (s := { s with render_state := RenderState.Scheduled b.nextToken })
      (t := b.nextToken)
    · rw [h1 hidle]
      simp [render_surface_for_output, hreg]
    · rfl
  · simp only [schedule_render, hs, hw]

/-- Witness for C1: from the concrete idle backend `B0`, one
`schedule_render` call schedules the render and registers callback 0. -/
theorem schedule_render_transitions_witness :
    schedule_render B0 =
      { B0 with
        surface := some { render_state := RenderState.Scheduled 0
                          screencopy_commit_state := ⟨0, 0, 0⟩ }
        pendingCallbacks := [0]
        nextToken := 1 } :=
  ((schedule_render_transitions B0
      { render_state := RenderState.Idle, screencopy_commit_state := ⟨0, 0, 0⟩ }
      (by decide)).1 rfl).1

/-- C10: powering an output on only sets the powered flag of that output;
the render state, the screencopy bookkeeping, the event loop, the crtc
and the compositor state are all left untouched (the power-on branch of
`set_output_powered` is a single flag write). -/
theorem set_output_powered_on_frame (b : Backend)
    (hreg : b.deviceRegistered = true) :
    set_output_powered b true = some { b with powered := true } := by
  simp [set_output_powered, hreg]

/-- Witness for C10: powering `B0` on changes nothing but the flag. -/
theorem set_output_powered_on_frame_witness :
    set_output_powered B0 true = some { B0 with powered := true } :=
  set_output_powered_on_frame B0 rfl

/-- C3: `on_vblank` (with `frame_submitted` not reporting a lost
context): when the state is `WaitingForVblank { dirty := true }` it is
taken and `schedule_render` runs immediately, so the surface ends
`Scheduled` with a fresh callback registered; when it is
`WaitingForVblank { dirty := false }` the frame callbacks are sent and no
render is scheduled, leaving the surface `Idle` and the loop untouched;
any other observed state is an anomaly that is logged and answered by a
fresh defensive `schedule_render`, again ending `Scheduled`. -/
theorem on_vblank_transitions (b : Backend) (s : RenderSurface)
    (fs : FrameSubmittedResult) (ac : Bool)
    (hreg : b.deviceRegistered = true) (hsurf : b.surface = some s)
    (hmap : b.outputMapped = true)
    (hfs : fs ≠ FrameSubmittedResult.contextLost) :
    (s.render_state = RenderState.WaitingForVblank true →
      ∃ b', on_vblank fs ac b = some b' ∧
        b'.surface = some { s with render_state := RenderState.Scheduled b.nextToken } ∧
        b'.pendingCallbacks = b.pendingCallbacks ++ [b.nextToken] ∧
        b'.frameCallbacksSent = b.frameCallbacksSent)
    ∧ (s.render_state = RenderState.WaitingForVblank false →
      ∃ b', on_vblank fs ac b = some b' ∧
        b'.surface = some { s with render_state := RenderState.Idle } ∧
        b'.pendingCallbacks = b.pendingCallbacks ∧
        b'.frameCallbacksSent = b.frameCallbacksSent + 1)
    ∧ ((∀ d, s.render_state ≠ RenderState.WaitingForVblank d) →
      ∃ b', on_vblank fs ac b = some b' ∧
        b'.surface = some { s with render_state := RenderState.Scheduled b.nextToken } ∧
        b'.pendingCallbacks = b.pendingCallbacks ++ [b.nextToken]) := by
  refine ⟨fun hd => ?_, fun hd => ?_, fun hd => ?_⟩
  · cases ac <;>
      simp [on_vblank, schedule_render, render_surface_for_output, hreg, hsurf, hmap, hfs, hd]
  · cases ac <;>
      simp [on_vblank, schedule_render, render_surface_for_output, hreg, hsurf, hmap, hfs, hd]
  · rcases hrs : s.render_state with _ | t | d
    · cases ac <;>
        simp [on_vblank, schedule_render, render_surface_for_output, hreg, hsurf, hmap, hfs, hrs]
    · cases ac <;>
        simp [on_vblank, schedule_render, render_surface_for_output, hreg, hsurf, hmap, hfs, hrs]
    · exact absurd hrs (hd d)

/-- Witness for C3: on the concrete backend waiting for vblank with a
coalesced (dirty) render, the vblank immediately reschedules. -/
theorem on_vblank_transitions_witness :
    ∃ b', on_vblank FrameSubmittedResult.ok false
        { B0 with surface := some { render_state := RenderState.WaitingForVblank true
                                    screencopy_commit_state := ⟨0, 0, 0⟩ } } = some b' ∧
      b'.surface = some { render_state := RenderState.Scheduled 0
                          screencopy_commit_state := ⟨0, 0, 0⟩ } ∧
      b'.pendingCallbacks = [0] ∧
      b'.frameCallbacksSent = 0 :=
  (on_vblank_transitions
      { B0 with surface := some { render_state := RenderState.WaitingForVblank true
                                  screencopy_commit_state := ⟨0, 0, 0⟩ } }
      { render_state := RenderState.WaitingForVblank true
        screencopy_commit_state := ⟨0, 0, 0⟩ }
      FrameSubmittedResult.ok false rfl rfl rfl (by decide)).1 rfl

/-- On a powered-off backend the deferred render callback queues no
frame, consumes no screencopy and registers nothing: it resets the
surface (if any) to `Idle` and returns before rendering. -/
theorem render_surface_unpowered (b : Backend) (hp : b.powered = false)
    (locked tr : Bool) (outcome : RenderOutcome) (sz : Int × Int)
    (env : ScreencopyEnv) :
    ∃ b', render_surface locked tr outcome sz env b = some b' ∧
      b'.queuedFrames = b.queuedFrames ∧
      b'.screencopy = b.screencopy ∧
      b'.pendingCallbacks = b.pendingCallbacks := by
  cases hrs : render_surface_for_output b with
  | none => exact ⟨b, by simp [render_surface, hrs], rfl, rfl, rfl⟩
  | some s =>
    by_cases hm : b.outputMapped = true
    · refine ⟨{ b with surface := some { s with render_state := RenderState.Idle } },
        ?_, rfl, rfl, rfl⟩
      simp [render_surface, hrs, hm, hp]
    · simp only [Bool.not_eq_true] at hm
      refine ⟨{ b with surface := some { s with render_state := RenderState.Idle } },
        ?_, rfl, rfl, rfl⟩
      simp [render_surface, hrs, hm]

/-- C6: powering an output off cancels the scheduled idle token (it is
removed from the event loop), forces the render state to `Idle`, and
while any output is powered off a deferred render callback queues no
frame and leaves the surface `Idle`; powering back on changes only the
flag, after which `schedule_render` cleanly transitions
`Idle → Scheduled`. -/
theorem power_off_cancels_then_power_on_resumes (b : Backend)
    (s : RenderSurface) (tok : Nat)
    (hreg : b.deviceRegistered = true) (hsurf : b.surface = some s)
    (hst : s.render_state = RenderState.Scheduled tok) :
    ∃ b_off, set_output_powered b false = some b_off ∧
      b_off.surface = some { s with render_state := RenderState.Idle } ∧
      b_off.pendingCallbacks = b.pendingCallbacks.filter (fun t => t ≠ tok) ∧
      b_off.powered = false ∧
      (∀ locked tr outcome sz env,
        ∃ b', render_surface locked tr outcome sz env b_off = some b' ∧
          b'.queuedFrames = b_off.queuedFrames ∧
          surfaceRenderState b' = some RenderState.Idle) ∧
      (∀ b2 : Backend, b2.powered = false →
        ∀ locked tr outcome sz env,
          ∃ b', render_surface locked tr outcome sz env b2 = some b' ∧
            b'.queuedFrames = b2.queuedFrames) ∧
      ∃ b_on, set_output_powered b_off true = some b_on ∧
        b_on = { b_off with powered := true } ∧
        surfaceRenderState (schedule_render b_on) =
          some (RenderState.Scheduled b_on.nextToken) ∧
        (schedule_render b_on).pendingCallbacks =
          b_on.pendingCallbacks ++ [b_on.nextToken] := by
  have hoff : set_output_powered b false =
      some { b with
        crtcActive := false
        powered := false
        compositorResets := b.compositorResets + 1
        surface := some { s with render_state := RenderState.Idle }
        pendingCallbacks := b.pendingCallbacks.filter (fun t => t ≠ tok) } := by
    simp [set_output_powered, hreg, hsurf, hst]
  refine ⟨_, hoff, rfl, rfl, rfl, ?_, ?_, ?_⟩
  · intro locked tr outcome sz env
    by_cases hm : b.outputMapped = true
    · refine ⟨_, ?_, rfl, rfl⟩
      simp [render_surface, render_surface_for_output, hreg, hm]
    · simp only [Bool.not_eq_true] at hm
      refine ⟨_, ?_, rfl, rfl⟩
      simp [render_surface, render_surface_for_output, hreg, hm]
  · intro b2 hp2 locked tr outcome sz env
    obtain ⟨b', h1, h2, _, _⟩ :=
      render_surface_unpowered b2 hp2 locked tr outcome sz env
    exact ⟨b', h1, h2⟩
  · refine ⟨_, ?_, rfl, ?_, ?_⟩
    · simp [set_output_powered, hreg]
    · simp [schedule_render, render_surface_for_output, surfaceRenderState, hreg]
    · simp [schedule_render, render_surface_for_output, hreg]

/-- Witness for C6: concrete power cycle from a backend whose surface is
`Scheduled 0` with callback 0 registered. -/
theorem power_off_cancels_then_power_on_resumes_witness :
    ∃ b_off, set_output_powered
        { B0 with surface := some { render_state := RenderState.Scheduled 0
                                    screencopy_commit_state := ⟨0, 0, 0⟩ }
                  pendingCallbacks := [0]
                  nextToken := 1 } false = some b_off ∧
      b_off.surface = some { render_state := RenderState.Idle
                             screencopy_commit_state := ⟨0, 0, 0⟩ } ∧
      b_off.pendingCallbacks = [0].filter (fun t => t ≠ 0) ∧
      b_off.powered = false ∧
      (∀ locked tr outcome sz env,
        ∃ b', render_surface locked tr outcome sz env b_off = some b' ∧
          b'.queuedFrames = b_off.queuedFrames ∧
          surfaceRenderState b' = some RenderState.Idle) ∧
      (∀ b2 : Backend, b2.powered = false →
        ∀ locked tr outcome sz env,
          ∃ b', render_surface locked tr outcome sz env b2 = some b' ∧
            b'.queuedFrames = b2.queuedFrames) ∧
      ∃ b_on, set_output_powered b_off true = some b_on ∧
        b_on = { b_off with powered := true } ∧
        surfaceRenderState (schedule_render b_on) =
          some (RenderState.Scheduled b_on.nextToken) ∧
        (schedule_render b_on).pendingCallbacks =
          b_on.pendingCallbacks ++ [b_on.nextToken] :=
  power_off_cancels_then_power_on_resumes
    { B0 with surface := some { render_state := RenderState.Scheduled 0
                                screencopy_commit_state := ⟨0, 0, 0⟩ }
              pendingCallbacks := [0]
              nextToken := 1 }
    { render_state := RenderState.Scheduled 0
      screencopy_commit_state := ⟨0, 0, 0⟩ }
    0 rfl rfl rfl

/-- The copy phase never re-attaches the request: every path of
`finishCopy` leaves the output's screencopy slot empty. -/
theorem finishCopy_slot (env : ScreencopyEnv) (sc : ScreencopyRequest)
    (ccs : ScreencopyCommitState) (ds : Option (List Rect)) :
    (finishCopy env sc ccs ds).slot = none := by
  unfold finishCopy
  cases hb : sc.buffer <;> dsimp only <;> split <;> rfl

/-- The copy phase never touches the commit counters. -/
theorem finishCopy_ccs (env : ScreencopyEnv) (sc : ScreencopyRequest)
    (ccs : ScreencopyCommitState) (ds : Option (List Rect)) :
    (finishCopy env sc ccs ds).ccs = ccs := by
  unfold finishCopy
  cases hb : sc.buffer <;> dsimp only <;> split <;> rfl

/-- The copy phase reports exactly the damage it was handed. -/
theorem finishCopy_damage_sent (env : ScreencopyEnv) (sc : ScreencopyRequest)
    (ccs : ScreencopyCommitState) (ds : Option (List Rect)) :
    (finishCopy env sc ccs ds).damage_sent = ds := by
  unfold finishCopy
  cases hb : sc.buffer <;> dsimp only <;> split <;> rfl

/-- Normal form of `handle_pending_screencopy` on a present request,
exposing the branch structure for the proofs below. -/
theorem handle_pending_screencopy_cases (env : ScreencopyEnv)
    (slot : Option ScreencopyRequest) (ccs : ScreencopyCommitState)
    (rfr : RenderFrameResult) (sz : Int × Int) (sc : ScreencopyRequest)
    (hslot : slot = some sc) :
    handle_pending_screencopy env slot ccs rfr sz =
      if sc.with_damage then
        if rfr.is_empty then
          ⟨some sc, ccs, none, ScreencopyOutcome.reattachedEmptyRender⟩
        else if (computeDamage rfr ccs sz).1.isEmpty then
          ⟨some sc, (computeDamage rfr ccs sz).2, none,
            ScreencopyOutcome.reattachedEmptyDamage⟩
        else
          finishCopy env sc (computeDamage rfr ccs sz).2
            (some (computeDamage rfr ccs sz).1)
      else finishCopy env sc ccs none := by
  subst hslot
  rfl

/-- C4 (amended direction): the per-plane commit counters change only
during the damage-computation pass, i.e. only when a damage-only request
is pending and the render result is non-empty; they are then set to the
planes' current commits whether or not the later copy succeeds. -/
theorem screencopy_counters_advance_only_on_damage_pass
    (env : ScreencopyEnv) (slot : Option ScreencopyRequest)
    (ccs : ScreencopyCommitState) (rfr : RenderFrameResult) (sz : Int × Int)
    (h : (handle_pending_screencopy env slot ccs rfr sz).ccs ≠ ccs) :
    ∃ sc, slot = some sc ∧ sc.with_damage = true ∧ rfr.is_empty = false ∧
      (handle_pending_screencopy env slot ccs rfr sz).ccs =
        (computeDamage rfr ccs sz).2 := by
  cases slot with
  | none => simp [handle_pending_screencopy] at h
  | some sc =>
    rw [handle_pending_screencopy_cases env _ ccs rfr sz sc rfl] at h ⊢
    by_cases hwd : sc.with_damage = true
    · by_cases he : rfr.is_empty = true
      · simp [hwd, he] at h
      · simp only [Bool.not_eq_true] at he
        refine ⟨sc, rfl, hwd, he, ?_⟩
        simp only [hwd, he, if_true, if_false, Bool.false_eq_true]
        split
        · rfl
        · exact finishCopy_ccs _ _ _ _
    · simp only [Bool.not_eq_true] at hwd
      rw [if_neg (by simp [hwd])] at h
      exact absurd (finishCopy_ccs env sc ccs none) h

/-- Environment where every copy-phase operation succeeds and the sync
point is already signaled. -/
def SEnv0 : ScreencopyEnv :=
  { copy_ok := true, sync_reached := true, export_ok := true, insert_ok := true }

/-- A damage-only capture request whose dmabuf has the wrong pixel format
(fourcc 0 instead of Argb8888). -/
def BadFormatDamageReq : ScreencopyRequest :=
  { with_damage := true
    overlay_cursor := false
    buffer := ScreencopyBuffer.dmabuf 0 8 8
    physical_region := ⟨0, 0, 8, 8⟩ }

/-- A damage-only capture request with a valid full-output dmabuf. -/
def GoodDamageReq : ScreencopyRequest :=
  { with_damage := true
    overlay_cursor := false
    buffer := ScreencopyBuffer.dmabuf argb8888Fourcc 8 8
    physical_region := ⟨0, 0, 8, 8⟩ }

/-- A non-empty render whose swapchain primary plane reports damage and
currently sits at commit 5. -/
def RFRswap : RenderFrameResult :=
  { is_empty := false
    primary_element := PrimaryPlane.swapchain (fun _ => some [⟨0, 0, 2, 2⟩]) 5
    cursor_element := none }

/-- Counterexample to C4 as stated: a damage-only capture with a
mismatched buffer format is dropped without any copy, yet the swapchain
commit counter advanced from 0 to 5 during the damage pass, so a counter
advanced on a render that did not result in a successful copy. -/
theorem screencopy_counters_advance_without_copy_counterexample :
    (handle_pending_screencopy SEnv0 (some BadFormatDamageReq) ⟨0, 0, 0⟩
        RFRswap (8, 8)).ccs = ⟨5, 0, 0⟩ ∧
    (handle_pending_screencopy SEnv0 (some BadFormatDamageReq) ⟨0, 0, 0⟩
        RFRswap (8, 8)).outcome = ScreencopyOutcome.droppedInvalid ∧
    (⟨5, 0, 0⟩ : ScreencopyCommitState) ≠ ⟨0, 0, 0⟩ :=
  ⟨rfl, rfl, by decide⟩

/-- Witness for the amended C4 theorem at the concrete dropped capture. -/
theorem screencopy_counters_advance_only_on_damage_pass_witness :
    ∃ sc, (some BadFormatDamageReq : Option ScreencopyRequest) = some sc ∧
      sc.with_damage = true ∧ RFRswap.is_empty = false ∧
      (handle_pending_screencopy SEnv0 (some BadFormatDamageReq) ⟨0, 0, 0⟩
          RFRswap (8, 8)).ccs = (computeDamage RFRswap ⟨0, 0, 0⟩ (8, 8)).2 :=
  screencopy_counters_advance_only_on_damage_pass SEnv0 (some BadFormatDamageReq)
    ⟨0, 0, 0⟩ RFRswap (8, 8) (by decide)

/-- C5: a damage-only capture is never completed with an empty damage
set: an empty render result or empty computed damage re-attaches the
request untouched, damage is only ever sent with at least one rect, and a
consumed request had damage sent. -/
theorem screencopy_damage_only_requires_damage (env : ScreencopyEnv)
    (slot : Option ScreencopyRequest) (ccs : ScreencopyCommitState)
    (rfr : RenderFrameResult) (sz : Int × Int) (sc : ScreencopyRequest)
    (hslot : slot = some sc) (hwd : sc.with_damage = true) :
    (rfr.is_empty = true →
      handle_pending_screencopy env slot ccs rfr sz =
        ⟨some sc, ccs, none, ScreencopyOutcome.reattachedEmptyRender⟩)
    ∧ ((computeDamage rfr ccs sz).1 = [] → rfr.is_empty = false →
      handle_pending_screencopy env slot ccs rfr sz =
        ⟨some sc, (computeDamage rfr ccs sz).2, none,
          ScreencopyOutcome.reattachedEmptyDamage⟩)
    ∧ (∀ d, (handle_pending_screencopy env slot ccs rfr sz).damage_sent = some d →
        d ≠ [])
    ∧ ((handle_pending_screencopy env slot ccs rfr sz).slot = none →
      ∃ d, (handle_pending_screencopy env slot ccs rfr sz).damage_sent = some d ∧
        d ≠ []) := by
  rw [handle_pending_screencopy_cases env _ ccs rfr sz sc hslot]
  refine ⟨?_, ?_, ?_, ?_⟩
  · intro he
    simp [hwd, he]
  · intro hdempty he
    by_cases hd : (computeDamage rfr ccs sz).1.isEmpty = true
    · simp [hwd, he, hd]
    · exact absurd (by simp [hdempty]) hd
  · intro d hds
    by_cases he : rfr.is_empty = true
    · simp [hwd, he] at hds
    · simp only [Bool.not_eq_true] at he
      by_cases hd : (computeDamage rfr ccs sz).1.isEmpty = true
      · simp [hwd, he, hd] at hds
      · simp only [hwd, he, hd, if_true, if_false, Bool.false_eq_true] at hds
        rw [finishCopy_damage_sent] at hds
        cases hds
        simpa [List.isEmpty_iff] using hd
  · intro hn
    by_cases he : rfr.is_empty = true
    · simp [hwd, he] at hn
    · simp only [Bool.not_eq_true] at he
      by_cases hd : (computeDamage rfr ccs sz).1.isEmpty = true
      · simp [hwd, he, hd] at hn
      · have hne : (computeDamage rfr ccs sz).1 ≠ [] := by
          simpa [List.isEmpty_iff] using hd
        refine ⟨(computeDamage rfr ccs sz).1, ?_, hne⟩
        simp only [hwd, he, hd, if_true, if_false, Bool.false_eq_true]
        exact finishCopy_damage_sent _ _ _ _

/-- Witness for C5: the valid concrete damage-only capture is consumed
with a non-empty damage set sent. -/
theorem screencopy_damage_only_requires_damage_witness :
    ∃ d, (handle_pending_screencopy SEnv0 (some GoodDamageReq) ⟨0, 0, 0⟩
        RFRswap (8, 8)).damage_sent = some d ∧ d ≠ [] :=
  (screencopy_damage_only_requires_damage SEnv0 (some GoodDamageReq) ⟨0, 0, 0⟩
    RFRswap (8, 8) GoodDamageReq rfl rfl).2.2.2 (by decide)

/-- The buffer validation of `handle_pending_screencopy`: a dmabuf must
be Argb8888 and exactly the size of the requested physical region; an shm
buffer must be Argb8888 with matching stride, height and pool length;
anything else always fails (the `not a shm buffer` path). -/
def bufferMatches (sc : ScreencopyRequest) : Bool :=
  match sc.buffer with
  | ScreencopyBuffer.dmabuf format width height =>
      format == argb8888Fourcc && width == sc.physical_region.w
        && height == sc.physical_region.h
  | ScreencopyBuffer.shm format stride height len =>
      format == wlShmArgb8888 && stride == sc.physical_region.w * 4
        && height == sc.physical_region.h && len == stride * height
  | ScreencopyBuffer.other => false

/-- On a buffer that fails validation the copy phase drops the request:
silently on the dmabuf path, with only an error log on the shm and
unknown-buffer paths. -/
theorem finishCopy_invalid_outcome (env : ScreencopyEnv)
    (sc : ScreencopyRequest) (ccs : ScreencopyCommitState)
    (ds : Option (List Rect)) (hbad : bufferMatches sc = false) :
    (finishCopy env sc ccs ds).outcome = ScreencopyOutcome.droppedInvalid ∨
    (finishCopy env sc ccs ds).outcome = ScreencopyOutcome.droppedCopyError := by
  unfold bufferMatches at hbad
  unfold finishCopy
  cases hb : sc.buffer with
  | dmabuf format width height =>
    rw [hb] at hbad
    dsimp only
    by_cases hc : format = argb8888Fourcc ∧ width = sc.physical_region.w
        ∧ height = sc.physical_region.h
    · simp [hc.1, hc.2.1, hc.2.2] at hbad
    · rw [if_neg hc]
      exact Or.inl rfl
  | shm format stride height len =>
    rw [hb] at hbad
    dsimp only
    by_cases hc : format = wlShmArgb8888 ∧ stride = sc.physical_region.w * 4
        ∧ height = sc.physical_region.h ∧ len = stride * height
    · simp [hc.1, hc.2.1, hc.2.2.1, hc.2.2.2] at hbad
    · rw [if_neg hc]
      exact Or.inr rfl
  | other =>
    dsimp only
    exact Or.inr rfl

/-- C7: a capture request whose buffer format or size does not match the
requested physical output region is never submitted; whenever the copy
stage is reached the request is consumed and dropped (silently for a
dmabuf, with only an error log otherwise), leaving the output's
screencopy slot free for later requests; otherwise the request is merely
re-attached by the damage pass.  `handle_pending_screencopy` never
touches the surface's render state at all, so subsequent frames are
unaffected. -/
theorem screencopy_invalid_buffer_dropped (env : ScreencopyEnv)
    (slot : Option ScreencopyRequest) (ccs : ScreencopyCommitState)
    (rfr : RenderFrameResult) (sz : Int × Int) (sc : ScreencopyRequest)
    (hslot : slot = some sc) (hbad : bufferMatches sc = false) :
    (handle_pending_screencopy env slot ccs rfr sz).outcome ≠
        ScreencopyOutcome.submitted ∧
    (handle_pending_screencopy env slot ccs rfr sz).outcome ≠
        ScreencopyOutcome.deferredSubmit ∧
    ((handle_pending_screencopy env slot ccs rfr sz).slot = none →
      (handle_pending_screencopy env slot ccs rfr sz).outcome =
          ScreencopyOutcome.droppedInvalid ∨
      (handle_pending_screencopy env slot ccs rfr sz).outcome =
          ScreencopyOutcome.droppedCopyError) ∧
    ((handle_pending_screencopy env slot ccs rfr sz).slot = none ∨
      (handle_pending_screencopy env slot ccs rfr sz).slot = some sc) := by
  rw [handle_pending_screencopy_cases env _ ccs rfr sz sc hslot]
  by_cases hwd : sc.with_damage = true
  · by_cases he : rfr.is_empty = true
    · refine ⟨by simp [hwd, he], by simp [hwd, he], fun hn => ?_, ?_⟩
      · simp [hwd, he] at hn
      · simp [hwd, he]
    · simp only [Bool.not_eq_true] at he
      by_cases hd : (computeDamage rfr ccs sz).1.isEmpty = true
      · refine ⟨by simp [hwd, he, hd], by simp [hwd, he, hd], fun hn => ?_, ?_⟩
        · simp [hwd, he, hd] at hn
        · simp [hwd, he, hd]
      · have hfc := finishCopy_invalid_outcome env sc (computeDamage rfr ccs sz).2
          (some (computeDamage rfr ccs sz).1) hbad
        refine ⟨?_, ?_, fun _ => ?_, ?_⟩ <;>
          simp only [hwd, he, hd, if_true, if_false, Bool.false_eq_true]
        · rcases hfc with h | h <;> simp [h]
        · rcases hfc with h | h <;> simp [h]
        · exact hfc
        · exact Or.inl (finishCopy_slot _ _ _ _)
  · simp only [Bool.not_eq_true] at hwd
    have hfc := finishCopy_invalid_outcome env sc ccs none hbad
    refine ⟨?_, ?_, fun _ => ?_, ?_⟩ <;> simp only [hwd, if_false, Bool.false_eq_true]
    · rcases hfc with h | h <;> simp [h]
    · rcases hfc with h | h <;> simp [h]
    · exact hfc
    · exact Or.inl (finishCopy_slot _ _ _ _)

/-- Witness for C7: the concrete wrong-format dmabuf capture is silently
dropped, never submitted, and frees the slot. -/
theorem screencopy_invalid_buffer_dropped_witness :
    (handle_pending_screencopy SEnv0 (some BadFormatDamageReq) ⟨0, 0, 0⟩
        RFRswap (8, 8)).outcome ≠ ScreencopyOutcome.submitted ∧
    (handle_pending_screencopy SEnv0 (some BadFormatDamageReq) ⟨0, 0, 0⟩
        RFRswap (8, 8)).outcome ≠ ScreencopyOutcome.deferredSubmit ∧
    ((handle_pending_screencopy SEnv0 (some BadFormatDamageReq) ⟨0, 0, 0⟩
        RFRswap (8, 8)).slot = none →
      (handle_pending_screencopy SEnv0 (some BadFormatDamageReq) ⟨0, 0, 0⟩
          RFRswap (8, 8)).outcome = ScreencopyOutcome.droppedInvalid ∨
      (handle_pending_screencopy SEnv0 (some BadFormatDamageReq) ⟨0, 0, 0⟩
          RFRswap (8, 8)).outcome = ScreencopyOutcome.droppedCopyError) ∧
    ((handle_pending_screencopy SEnv0 (some BadFormatDamageReq) ⟨0, 0, 0⟩
        RFRswap (8, 8)).slot = none ∨
      (handle_pending_screencopy SEnv0 (some BadFormatDamageReq) ⟨0, 0, 0⟩
        RFRswap (8, 8)).slot = some BadFormatDamageReq) :=
  screencopy_invalid_buffer_dropped SEnv0 (some BadFormatDamageReq) ⟨0, 0, 0⟩
    RFRswap (8, 8) BadFormatDamageReq rfl (by decide)

/-- Concrete backend whose surface has a render scheduled as token 0. -/
def BSched : Backend :=
  { B0 with
    surface := some { render_state := RenderState.Scheduled 0
                      screencopy_commit_state := ⟨0, 0, 0⟩ }
    pendingCallbacks := [0]
    nextToken := 1 }

/-- Counterexample to C2 as stated: when a layout transaction completed
during the deferred callback (`render_after_transaction_finish`), a
rendered and queued frame does not leave the state at
`WaitingForVblank { dirty := false }` — the trailing `schedule_render`
flips it to `WaitingForVblank { dirty := true }`. -/
theorem render_surface_transaction_counterexample :
    Option.map (fun b => (b.queuedFrames, surfaceRenderState b))
        (render_surface true true (RenderOutcome.frame RFRswap true) (8, 8)
          SEnv0 BSched)
      = some (1, some (RenderState.WaitingForVblank true)) ∧
    some (RenderState.WaitingForVblank true) ≠
      some (RenderState.WaitingForVblank false) :=
  ⟨rfl, by decide⟩

/-- C2 (amended): when the deferred callback fires with the state
`Scheduled`: an unmapped or powered-off output goes to `Idle` without
rendering; otherwise, with no completed layout transaction, an empty
frame goes to `Idle` and a rendered-and-queued frame to
`WaitingForVblank { dirty := false }`; when a layout transaction
completed during the callback, `schedule_render` additionally runs at the
end, so an empty frame ends `Scheduled` and a queued frame ends
`WaitingForVblank { dirty := true }`. -/
theorem render_surface_callback_transitions (locked tr : Bool)
    (outcome : RenderOutcome) (sz : Int × Int) (env : ScreencopyEnv)
    (b : Backend) (s : RenderSurface) (tok : Nat)
    (hs : render_surface_for_output b = some s)
    (hst : s.render_state = RenderState.Scheduled tok) :
    (b.outputMapped = false →
      render_surface locked tr outcome sz env b =
        some { b with surface := some { s with render_state := RenderState.Idle } })
    ∧ (b.outputMapped = true → b.powered = false →
      render_surface locked tr outcome sz env b =
        some { b with surface := some { s with render_state := RenderState.Idle } })
    ∧ (b.outputMapped = true → b.powered = true →
      ∀ rfr queue_ok, outcome = RenderOutcome.frame rfr queue_ok →
        (rfr.is_empty = true →
          Option.map (fun b' => (b'.queuedFrames, surfaceRenderState b'))
              (render_surface locked tr outcome sz env b)
            = some (b.queuedFrames,
                some (if tr then RenderState.Scheduled b.nextToken
                  else RenderState.Idle)))
        ∧ (rfr.is_empty = false → queue_ok = true →
          Option.map (fun b' => (b'.queuedFrames, surfaceRenderState b'))
              (render_surface locked tr outcome sz env b)
            = some (b.queuedFrames + 1,
                some (RenderState.WaitingForVblank tr)))) := by
  obtain ⟨hreg, hsurf⟩ := registered_of_rsfo hs
  refine ⟨fun hm => ?_, fun hm hp => ?_, fun hm hp rfr queue_ok hout => ⟨?_, ?_⟩⟩
  · simp [render_surface, hs, hm]
  · simp [render_surface, hs, hm, hp]
  · intro hre
    subst hout
    cases tr <;> cases locked <;>
      simp [render_surface, schedule_render, render_surface_for_output,
        surfaceRenderState, hsurf, hreg, hm, hp, hst, hre]
  · intro hre hqok
    subst hout
    subst hqok
    cases tr <;> cases locked <;>
      simp [render_surface, schedule_render, render_surface_for_output,
        surfaceRenderState, hsurf, hreg, hm, hp, hst, hre]

/-- Witness for the amended C2 theorem: concrete rendered-and-queued
frame without a completed transaction ends `WaitingForVblank dirty=false`
with one queued frame. -/
theorem render_surface_callback_transitions_witness :
    Option.map (fun b' => (b'.queuedFrames, surfaceRenderState b'))
        (render_surface true false (RenderOutcome.frame RFRswap true) (8, 8)
          SEnv0 BSched)
      = some (1, some (RenderState.WaitingForVblank false)) :=
  ((render_surface_callback_transitions true false
      (RenderOutcome.frame RFRswap true) (8, 8) SEnv0 BSched
      { render_state := RenderState.Scheduled 0
        screencopy_commit_state := ⟨0, 0, 0⟩ } 0
      (by decide) rfl).2.2 rfl rfl RFRswap true rfl).2 rfl rfl

/-- Counterexample to C8 as stated: an ordinary render error during the
deferred callback does not return the surface to `Idle` when a layout
transaction completed in the same callback — the trailing
`schedule_render` leaves it `Scheduled`. -/
theorem render_error_transaction_counterexample :
    Option.map surfaceRenderState
        (render_surface false true RenderOutcome.renderError (8, 8) SEnv0 BSched)
      = some (some (RenderState.Scheduled 1)) ∧
    some (some (RenderState.Scheduled 1)) ≠
      (some (some RenderState.Idle) : Option (Option RenderState)) :=
  ⟨rfl, by decide⟩

/-- C8 (amended): an ordinary render error or a `queue_frame` error in
the deferred callback returns the surface to `Idle` when no layout
transaction completed (the next damage event retries), and to `Scheduled`
(immediate retry) when one did; the designated fatal class — context loss
observed at `frame_submitted` in `on_vblank` — aborts the process. -/
theorem error_recovery_and_context_loss (b : Backend) (s : RenderSurface)
    (tok : Nat) (hs : render_surface_for_output b = some s)
    (hst : s.render_state = RenderState.Scheduled tok)
    (hm : b.outputMapped = true) (hp : b.powered = true) :
    (∀ locked sz env,
      render_surface locked false RenderOutcome.renderError sz env b =
        some { b with surface := some { s with render_state := RenderState.Idle } })
    ∧ (∀ locked sz env,
      Option.map surfaceRenderState
          (render_surface locked true RenderOutcome.renderError sz env b)
        = some (some (RenderState.Scheduled b.nextToken)))
    ∧ (∀ locked sz env rfr, rfr.is_empty = false →
      Option.map surfaceRenderState
          (render_surface locked false (RenderOutcome.frame rfr false) sz env b)
        = some (some RenderState.Idle))
    ∧ (∀ locked sz env rfr, rfr.is_empty = false →
      Option.map surfaceRenderState
          (render_surface locked true (RenderOutcome.frame rfr false) sz env b)
        = some (some (RenderState.Scheduled b.nextToken)))
    ∧ (∀ ac, on_vblank FrameSubmittedResult.contextLost ac b = none) := by
  obtain ⟨hreg, hsurf⟩ := registered_of_rsfo hs
  refine ⟨fun locked sz env => ?_, fun locked sz env => ?_,
    fun locked sz env rfr hre => ?_, fun locked sz env rfr hre => ?_, fun ac => ?_⟩
  · simp [render_surface, hs, hm, hp, hst]
  · simp [render_surface, schedule_render, render_surface_for_output,
      surfaceRenderState, hsurf, hreg, hm, hp, hst]
  · cases locked <;>
      simp [render_surface, surfaceRenderState, hs, hm, hp, hst, hre]
  · cases locked <;>
      simp [render_surface, schedule_render, render_surface_for_output,
        surfaceRenderState, hsurf, hreg, hm, hp, hst, hre]
  · simp [on_vblank, hreg, hsurf, hm]

/-- Witness for the amended C8 theorem: concrete render error without a
transaction goes back to `Idle`; concrete context loss at vblank aborts. -/
theorem error_recovery_and_context_loss_witness :
    render_surface false false RenderOutcome.renderError (8, 8) SEnv0 BSched =
      some { BSched with
        surface := some { render_state := RenderState.Idle
                          screencopy_commit_state := ⟨0, 0, 0⟩ } } ∧
    Option.map surfaceRenderState
        (render_surface false true (RenderOutcome.frame RFRswap false) (8, 8)
          SEnv0 BSched)
      = some (some (RenderState.Scheduled 1)) ∧
    on_vblank FrameSubmittedResult.contextLost false BSched = none :=
  ⟨(error_recovery_and_context_loss BSched
      { render_state := RenderState.Scheduled 0
        screencopy_commit_state := ⟨0, 0, 0⟩ } 0
      (by decide) rfl rfl rfl).1 false (8, 8) SEnv0,
   (error_recovery_and_context_loss BSched
      { render_state := RenderState.Scheduled 0
        screencopy_commit_state := ⟨0, 0, 0⟩ } 0
      (by decide) rfl rfl rfl).2.2.2.1 false (8, 8) SEnv0 RFRswap rfl,
   (error_recovery_and_context_loss BSched
      { render_state := RenderState.Scheduled 0
        screencopy_commit_state := ⟨0, 0, 0⟩ } 0
      (by decide) rfl rfl rfl).2.2.2.2 false⟩

/-- Unfolding of `countKey` over a cons cell. -/
theorem countKey_cons (k' : Nat) (v' : UdevBackendData)
    (rest : List (Nat × UdevBackendData)) (k : Nat) :
    countKey ((k', v') :: rest) k =
      (if k' = k then 1 else 0) + countKey rest k := by
  by_cases hk : k' = k <;> simp [countKey, List.filter_cons, hk, Nat.add_comm]

/-- `HashMap::insert` leaves exactly one binding of the inserted key
(given the no-duplicate-keys invariant of a map). -/
theorem countKey_insertBackend (m : List (Nat × UdevBackendData)) (k : Nat)
    (v : UdevBackendData) (h : countKey m k ≤ 1) :
    countKey (insertBackend m k v) k = 1 := by
  induction m with
  | nil => simp [insertBackend, countKey]
  | cons p rest ih =>
    obtain ⟨k', v'⟩ := p
    rw [countKey_cons] at h
    by_cases hk : k' = k
    · subst hk
      rw [if_pos rfl] at h
      have h0 : countKey rest k' = 0 := by omega
      simp [insertBackend, countKey_cons, h0]
    · rw [if_neg hk] at h
      rw [insertBackend, if_neg hk, countKey_cons, if_neg hk]
      simpa using ih (by simpa using h)

/-- In-place mutation through `get_mut` never changes which keys are
bound, so key counts are preserved. -/
theorem countKey_updateBackend (m : List (Nat × UdevBackendData))
    (k k' : Nat) (f : UdevBackendData → UdevBackendData) :
    countKey (updateBackend m k f) k' = countKey m k' := by
  induction m with
  | nil => rfl
  | cons p rest ih =>
    obtain ⟨k0, v0⟩ := p
    by_cases h0 : k0 = k <;>
      simp [updateBackend, countKey_cons, h0, ← ih, updateBackend]

/-- C9: calling `device_added` twice with the same device id leaves
exactly one registry entry for that id — `backends.insert` replaces the
binding and the trailing connector rescan never touches the key set. -/
theorem device_added_idempotent (env1 env2 : DeviceAddEnv)
    (backends m1 m2 : List (Nat × UdevBackendData)) (node : Nat)
    (hcount : countKey backends node ≤ 1)
    (h1 : device_added env1 backends node = Except.ok m1)
    (h2 : device_added env2 m1 node = Except.ok m2) :
    countKey m2 node = 1 := by
  have key : ∀ (env : DeviceAddEnv) (m m' : List (Nat × UdevBackendData)),
      countKey m node ≤ 1 → device_added env m node = Except.ok m' →
      countKey m' node = 1 := by
    intro env m m' hc h
    unfold device_added at h
    split at h
    · cases h
    · split at h
      · cases h
      · split at h
        · cases h
        · split at h
          · cases h
          · simp only [Except.ok.injEq] at h
            subst h
            rw [countKey_updateBackend]
            exact countKey_insertBackend m node _ hc
  have hm1 : countKey m1 node = 1 := key env1 backends m1 hcount h1
  exact key env2 m1 m2 (le_of_eq hm1) h2

/-- Environment in which every step of `device_added` succeeds and the
connector rescan finds nothing. -/
def DAEnvOk : DeviceAddEnv :=
  { open_ok := true, drm_ok := true, gbm_ok := true, add_node_ok := true
    token := 0, render_node := 0, scan := id }

/-- Witness for C9: adding device 7 twice to an empty registry leaves
exactly one binding for 7. -/
theorem device_added_idempotent_witness :
    ∃ m1 m2, device_added DAEnvOk [] 7 = Except.ok m1 ∧
      device_added DAEnvOk m1 7 = Except.ok m2 ∧ countKey m2 7 = 1 := by
  refine ⟨_, _, rfl, rfl, ?_⟩
  exact device_added_idempotent DAEnvOk DAEnvOk [] _ _ 7 (by decide) rfl rfl

end Pinnacle
